import Mathlib

/-
Shallow embedding of the CComp backend (src/backend/main.py).

The backend is a FastAPI application whose handlers read and write a
Firestore document database and the Firebase identity service. The
embedding models:

- the document store as association lists from document id (String) to
  document, kept in ascending document id order, which is the order in
  which a Firestore collection stream without an order_by clause yields
  its documents;
- datetime.now() and uuid.uuid4() as explicit Nat / String parameters
  threaded into each handler;
- the SMTP send outcome as an explicit Bool oracle parameter;
- each handler as a pure function from the store and its arguments to a
  result and a new store, where the result is Except over an HTTP-style
  error. Every handler body in the source is wrapped in a single
  try/except Exception block that re-raises any exception as
  HTTPException(500, str(e)); since fastapi.HTTPException is itself a
  subclass of Exception, that catch-all also intercepts the 404/400
  HTTPExceptions the body raises intentionally. The wrapper catchAll
  below reproduces exactly that.

An admin entry in the admins collection is modelled as present once
content is written under it, matching the hierarchical key-value
abstraction of the store that the handlers rely on for their cross-admin
scans.
-/

namespace CComp

/-- HTTP-style error carried by a raised fastapi.HTTPException:
status code and detail message. -/
inductive PyErr where
  | http (status : Nat) (detail : String)
deriving DecidableEq

/-- Result of applying str to an HTTPException, as happens when the
catch-all re-raises it: the status code and detail joined by a colon. -/
def errStr : PyErr → String
  | .http s d => toString s ++ ": " ++ d

/-- Repository document, as produced by the Repository pydantic model in
main.py and stored via repository.dict(). lastSync timestamps are
modelled as Nat. -/
structure Repo where
  id : String
  name : String
  url : String
  description : String
  language : String
  lastSync : Nat
  status : String
  adminUid : String
deriving DecidableEq

/-- Onboarding session document. The OnboardingSession pydantic model in
main.py carries the first ten fields; startedAt and employeeUid are
added later by session_ref.update calls (Firestore documents are
schemaless), so they are modelled as Option fields that are none on
creation. -/
structure Session where
  id : String
  email : String
  role : String
  repositories : List String
  status : String
  createdAt : Nat
  completedAt : Option Nat
  progress : Int
  customInstructions : Option String
  adminUid : String
  startedAt : Option Nat
  employeeUid : Option String
deriving DecidableEq

/-- User mirror document written to the users collection. Different
handlers write different field sets (the document is replaced whole by
set), so fields absent from a given write are modelled as none. -/
structure UserRec where
  name : String
  email : String
  role : String
  job_role : Option String
  invitedBy : Option String
  onboardingSessionId : Option String
  signupDate : Option Nat
deriving DecidableEq

/-- Custom claims dictionary passed to auth.set_custom_user_claims:
either a bare role, or a role together with a job_role. -/
structure RoleClaims where
  role : String
  job_role : Option String
deriving DecidableEq

/-- Request body of POST /repositories (CreateRepositoryRequest). -/
structure CreateRepositoryRequest where
  name : String
  url : String
  description : String
  language : String
  adminUid : String
deriving DecidableEq

/-- Request body of POST /onboarding-sessions (CreateOnboardingRequest). -/
structure CreateOnboardingRequest where
  email : String
  role : String
  repositories : List String
  customInstructions : Option String
  adminUid : String
deriving DecidableEq

/-- Request body of POST /employee-signup (EmployeeSignupRequest). -/
structure EmployeeSignupRequest where
  uid : String
  name : String
  email : String
  onboarding_token : String
deriving DecidableEq

/-- Body dict of POST /complete-onboarding: uid and email are accessed
with mandatory indexing, name with data.get and default empty string, so
a missing name is modelled as the empty string. -/
structure CompleteOnboardingData where
  uid : String
  name : String
  email : String
deriving DecidableEq

/-- Value returned by GET /employee-onboarding on success: session data
plus best-effort admin display info from the users collection. -/
structure EmployeeOnboardingInfo where
  id : String
  email : String
  role : String
  repositories : List String
  customInstructions : Option String
  adminUid : String
  adminName : Option String
  adminEmail : Option String
deriving DecidableEq

/-- Value returned by POST /employee-signup on success. -/
structure EmployeeSignupResult where
  message : String
  sessionId : String
  role : String
  repositories : List String
  customInstructions : Option String
deriving DecidableEq

deriving instance DecidableEq for Except

/-- Lexicographic comparison of character sequences, used to model the
document id order in which Firestore streams the documents of a
collection. -/
def charSeqLt : List Char → List Char → Bool
  | [], [] => false
  | [], _ :: _ => true
  | _ :: _, [] => false
  | c :: cs, d :: ds =>
    if c.toNat < d.toNat then true
    else if d.toNat < c.toNat then false
    else charSeqLt cs ds

/-- Strict lexicographic order on document ids. -/
def docIdLt (a b : String) : Bool := charSeqLt a.data b.data

/-- Document read by id: first entry with the given key. -/
def getDoc {α : Type} : List (String × α) → String → Option α
  | [], _ => none
  | (q, w) :: t, k => if k = q then some w else getDoc t k

/-- Document write by id: inserts or replaces, preserving ascending
document id order (a fresh key is placed at its ordered position,
matching the order a later collection stream returns). -/
def setDoc {α : Type} : List (String × α) → String → α → List (String × α)
  | [], k, v => [(k, v)]
  | (q, w) :: t, k, v =>
    if k = q then (k, v) :: t
    else if docIdLt k q then (k, v) :: (q, w) :: t
    else (q, w) :: setDoc t k v

/-- Document delete by id. -/
def delDoc {α : Type} : List (String × α) → String → List (String × α)
  | [], _ => []
  | (q, w) :: t, k => if k = q then t else (q, w) :: delDoc t k

/-- The two sub-collections kept under each admin document:
admins/{uid}/repositories and admins/{uid}/onboarding_sessions. -/
structure AdminDoc where
  repositories : List (String × Repo)
  onboarding_sessions : List (String × Session)
deriving DecidableEq

/-- The whole document database plus the identity service state: the
admins collection with its sub-collections, the top level users
collection, and the per-uid custom claims held by Firebase Auth. -/
structure Store where
  admins : List (String × AdminDoc)
  users : List (String × UserRec)
  custom_user_claims : List (String × RoleClaims)
deriving DecidableEq

/-- Reading the sub-collections of an admin: an absent admin document
streams empty sub-collections. -/
def Store.adminDoc (st : Store) (uid : String) : AdminDoc :=
  (getDoc st.admins uid).getD { repositories := [], onboarding_sessions := [] }

/-- Write admins/{uid}/repositories/{rid}. -/
def Store.setRepoDoc (st : Store) (uid rid : String) (r : Repo) : Store :=
  let a := st.adminDoc uid
  { st with admins := setDoc st.admins uid { a with repositories := setDoc a.repositories rid r } }

/-- Delete admins/{uid}/repositories/{rid}. -/
def Store.delRepoDoc (st : Store) (uid rid : String) : Store :=
  let a := st.adminDoc uid
  { st with admins := setDoc st.admins uid { a with repositories := delDoc a.repositories rid } }

/-- Write admins/{uid}/onboarding_sessions/{sid}. -/
def Store.setSessionDoc (st : Store) (uid sid : String) (s : Session) : Store :=
  let a := st.adminDoc uid
  { st with admins := setDoc st.admins uid { a with onboarding_sessions := setDoc a.onboarding_sessions sid s } }

/-- Partial update (session_ref.update) of an onboarding session
document: merges the given field changes into the stored document.
Every call site in the source has just established that the document
exists; on a missing document this model is the identity. -/
def Store.updateSessionDoc (st : Store) (uid sid : String) (f : Session → Session) : Store :=
  let a := st.adminDoc uid
  match getDoc a.onboarding_sessions sid with
  | some s =>
    { st with admins := setDoc st.admins uid { a with onboarding_sessions := setDoc a.onboarding_sessions sid (f s) } }
  | none => st

/-- Write users/{uid} (document replaced whole). -/
def Store.setUserDoc (st : Store) (uid : String) (u : UserRec) : Store :=
  { st with users := setDoc st.users uid u }

/-- auth.set_custom_user_claims(uid, claims). -/
def Store.setUserClaims (st : Store) (uid : String) (c : RoleClaims) : Store :=
  { st with custom_user_claims := setDoc st.custom_user_claims uid c }

/-- The single try/except Exception wrapper every handler body sits in:
any error, including an HTTPException the body raised intentionally, is
caught and re-raised as HTTPException(500, str(e)). All raises in the
handler bodies happen before any write, so the store component carried
along is the store at the raise point. -/
def catchAll {α : Type} : Except PyErr α × Store → Except PyErr α × Store
  | (.ok v, st) => (.ok v, st)
  | (.error e, st) => (.error (.http 500 (errStr e)), st)

/-- send_onboarding_email builds the invitation message and pushes it
through an SMTP handshake (connect, starttls, login, send, quit); the
whole body is inside try/except, every exception is caught and False is
returned, success returns True. The external SMTP outcome is the oracle
parameter; the function itself never raises. -/
def send_onboarding_email (smtp_ok : Bool) : Bool := smtp_ok

/-- GET /repositories/: streams the admins repositories sub-collection
and tags each document dict with its document id. -/
def get_repositories (st : Store) (admin_uid : String) : Except PyErr (List Repo) × Store :=
  catchAll (.ok ((st.adminDoc admin_uid).repositories.map (fun p => { p.2 with id := p.1 })), st)

/-- POST /repositories: builds a Repository with a generated id, status
syncing and lastSync now, saves it under the admin, returns it. The
generated uuid and the clock are the repo_id and now parameters. -/
def create_repository (st : Store) (repo_data : CreateRepositoryRequest) (repo_id : String) (now : Nat) :
    Except PyErr Repo × Store :=
  let repository : Repo :=
    { id := repo_id, name := repo_data.name, url := repo_data.url,
      description := repo_data.description, language := repo_data.language,
      lastSync := now, status := "syncing", adminUid := repo_data.adminUid }
  catchAll (.ok repository, st.setRepoDoc repo_data.adminUid repo_id repository)

/-- DELETE /repositories/: raises 404 if the document does not exist,
otherwise deletes it. -/
def delete_repository (st : Store) (admin_uid repo_id : String) : Except PyErr String × Store :=
  catchAll <|
    match getDoc (st.adminDoc admin_uid).repositories repo_id with
    | none => (.error (.http 404 "Repository not found"), st)
    | some _ => (.ok "Repository deleted successfully", st.delRepoDoc admin_uid repo_id)

/-- GET /onboarding-sessions/: streams the admins onboarding_sessions
sub-collection and tags each document dict with its document id. No
order_by is applied, so documents come back in document id order. -/
def get_onboarding_sessions (st : Store) (admin_uid : String) : Except PyErr (List Session) × Store :=
  catchAll (.ok ((st.adminDoc admin_uid).onboarding_sessions.map (fun p => { p.2 with id := p.1 })), st)

/-- The first entry of the request repositories list that is not among
the names of the admins stored repositories; none when all are found.
Mirrors the validation loop in create_onboarding_session, which checks
each entry against admin_repo_names, the list of repository names. -/
def firstMissing (names : List String) : List String → Option String
  | [] => none
  | r :: t => if r ∈ names then firstMissing names t else some r

/-- The OnboardingSession record built by create_onboarding_session:
status pending, createdAt now, progress 0, no completion data. -/
def newSession (session_data : CreateOnboardingRequest) (session_id : String) (now : Nat) : Session :=
  { id := session_id, email := session_data.email, role := session_data.role,
    repositories := session_data.repositories, status := "pending",
    createdAt := now, completedAt := none, progress := 0,
    customInstructions := session_data.customInstructions,
    adminUid := session_data.adminUid, startedAt := none, employeeUid := none }

/-- POST /onboarding-sessions: validates each entry of the request
repositories list against the names of the admins repositories, raising
400 at the first missing one; otherwise persists the new pending
session, then calls send_onboarding_email and only prints depending on
its boolean outcome. -/
def create_onboarding_session (st : Store) (session_data : CreateOnboardingRequest)
    (session_id : String) (now : Nat) (smtp_ok : Bool) : Except PyErr Session × Store :=
  catchAll <|
    let admin_repo_names := (st.adminDoc session_data.adminUid).repositories.map (fun p => p.2.name)
    match firstMissing admin_repo_names session_data.repositories with
    | some repo_name =>
      (.error (.http 400 ("Repository \x27" ++ repo_name ++ "\x27 not found")), st)
    | none =>
      let session := newSession session_data session_id now
      let st2 := st.setSessionDoc session_data.adminUid session_id session
      let _email_sent := send_onboarding_email smtp_ok
      (.ok session, st2)

/-- The scan shared by GET /employee-onboarding and POST
/employee-signup: iterate the admins collection in stream order and
return the first admin whose onboarding_sessions sub-collection has a
document keyed by the token, together with that document. -/
def findSession : List (String × AdminDoc) → String → Option (String × AdminDoc × Session)
  | [], _ => none
  | (uid, a) :: t, token =>
    match getDoc a.onboarding_sessions token with
    | some s => some (uid, a, s)
    | none => findSession t token

/-- GET /employee-onboarding/: scans all admins for the token, raising
404 when no admin owns it; on a hit, raises 400 unless the session
status is pending, otherwise returns the session data enriched
best-effort with the admin name and email from the users collection. -/
def get_employee_onboarding_session (st : Store) (token : String) :
    Except PyErr EmployeeOnboardingInfo × Store :=
  catchAll <|
    match findSession st.admins token with
    | none => (.error (.http 404 "Invalid onboarding token"), st)
    | some (admin_uid, _, session_data) =>
      if session_data.status ≠ "pending" then
        (.error (.http 400 "Onboarding session is no longer valid"), st)
      else
        let base : EmployeeOnboardingInfo :=
          { id := token, email := session_data.email, role := session_data.role,
            repositories := session_data.repositories,
            customInstructions := session_data.customInstructions,
            adminUid := admin_uid, adminName := none, adminEmail := none }
        match getDoc st.users admin_uid with
        | some u => (.ok { base with adminName := some u.name, adminEmail := some u.email }, st)
        | none => (.ok base, st)

/-- POST /employee-signup: re-runs the token scan (404 when unknown),
raises 400 when the stored invitation email differs from the supplied
one, raises 400 when the session status is not pending; on success sets
custom claims role employee with job_role the invited role, replaces the
users/{uid} mirror, and updates the session to in_progress recording
startedAt and employeeUid. -/
def employee_signup (st : Store) (data : EmployeeSignupRequest) (now : Nat) :
    Except PyErr EmployeeSignupResult × Store :=
  catchAll <|
    match findSession st.admins data.onboarding_token with
    | none => (.error (.http 404 "Invalid onboarding token"), st)
    | some (admin_uid, _, session_data) =>
      if session_data.email ≠ data.email then
        (.error (.http 400 "Email does not match invitation"), st)
      else if session_data.status ≠ "pending" then
        (.error (.http 400 "Onboarding session is no longer valid"), st)
      else
        let role := session_data.role
        let st1 := st.setUserClaims data.uid { role := "employee", job_role := some role }
        let st2 := st1.setUserDoc data.uid
          { name := data.name, email := data.email, role := "employee",
            job_role := some role, invitedBy := some admin_uid,
            onboardingSessionId := some data.onboarding_token, signupDate := some now }
        let st3 := st2.updateSessionDoc admin_uid data.onboarding_token
          (fun s => { s with status := "in_progress", startedAt := some now, employeeUid := some data.uid })
        (.ok { message := "Employee signup completed. Role " ++ role ++ " assigned to " ++ data.email,
               sessionId := data.onboarding_token, role := role,
               repositories := session_data.repositories,
               customInstructions := session_data.customInstructions }, st3)

/-- POST /complete-onboarding//: raises 404 when the session does
not exist; otherwise, with no status check and no email comparison, sets
the custom claims role to the role stored on the session, replaces the
users/{uid} mirror, and updates the session to in_progress recording
startedAt only. -/
def complete_onboarding (st : Store) (admin_uid session_id : String)
    (data : CompleteOnboardingData) (now : Nat) : Except PyErr String × Store :=
  catchAll <|
    match getDoc (st.adminDoc admin_uid).onboarding_sessions session_id with
    | none => (.error (.http 404 "Onboarding session not found"), st)
    | some session_data =>
      let role := session_data.role
      let st1 := st.setUserClaims data.uid { role := role, job_role := none }
      let st2 := st1.setUserDoc data.uid
        { name := data.name, email := data.email, role := role,
          job_role := none, invitedBy := some admin_uid,
          onboardingSessionId := some session_id, signupDate := none }
      let st3 := st2.updateSessionDoc admin_uid session_id
        (fun s => { s with status := "in_progress", startedAt := some now })
      (.ok ("Onboarding completed. Role " ++ role ++ " assigned to " ++ data.email), st3)

/-- The update dict built by update_onboarding_progress: progress is
always written; at 100 or above status becomes completed and completedAt
is stamped; strictly between 0 and 100 status becomes in_progress and
completedAt is not touched; at 0 or below neither status nor completedAt
is touched. -/
def progressUpdate (progress : Int) (now : Nat) (s : Session) : Session :=
  if progress ≥ 100 then { s with progress := progress, status := "completed", completedAt := some now }
  else if progress > 0 then { s with progress := progress, status := "in_progress" }
  else { s with progress := progress }

/-- PUT /onboarding-sessions///progress: raises 404 when the session
does not exist; otherwise merges the progress update into the document,
re-reads it, tags it with its document id and returns it. -/
def update_onboarding_progress (st : Store) (admin_uid session_id : String)
    (progress : Int) (now : Nat) : Except PyErr Session × Store :=
  catchAll <|
    match getDoc (st.adminDoc admin_uid).onboarding_sessions session_id with
    | none => (.error (.http 404 "Onboarding session not found"), st)
    | some s =>
      (.ok { progressUpdate progress now s with id := session_id },
       st.updateSessionDoc admin_uid session_id (progressUpdate progress now))

/-- The sessions list is in ascending creation time order: each
createdAt is at most the next. This is the ordering property the spec
asserts for the session listing. -/
def createdAtAscending : List Session → Bool
  | [] => true
  | [_] => true
  | x :: y :: t => (decide (x.createdAt ≤ y.createdAt)) && createdAtAscending (y :: t)

/-- The sessions list is in strictly ascending document id order. -/
def idAscending : List Session → Bool
  | [] => true
  | [_] => true
  | x :: y :: t => docIdLt x.id y.id && idAscending (y :: t)

/-- The entries of a collection are in strictly ascending key order. -/
def keysAscending {α : Type} : List (String × α) → Bool
  | [] => true
  | [_] => true
  | p :: q :: t => docIdLt p.1 q.1 && keysAscending (q :: t)

/-! Helper lemmas about the document store operations. -/

theorem getDoc_setDoc_self {α : Type} (l : List (String × α)) (k : String) (v : α) :
    getDoc (setDoc l k v) k = some v := by
  induction l with
  | nil => simp [setDoc, getDoc]
  | cons p t ih =>
    obtain ⟨q, w⟩ := p
    by_cases hq : k = q
    · simp [setDoc, hq, getDoc]
    · cases hlt : docIdLt k q
      · simp [setDoc, hq, hlt, getDoc, ih]
      · simp [setDoc, hq, hlt, getDoc]

theorem getDoc_setDoc_ne {α : Type} (l : List (String × α)) (k q : String) (v : α)
    (h : q ≠ k) : getDoc (setDoc l k v) q = getDoc l q := by
  induction l with
  | nil => simp [setDoc, getDoc, h]
  | cons p t ih =>
    obtain ⟨a, b⟩ := p
    by_cases hk : k = a
    · subst hk
      simp [setDoc, getDoc, h]
    · cases hlt : docIdLt k a
      · simp [setDoc, hk, hlt, getDoc, ih]
      · simp [setDoc, hk, hlt, getDoc, h]

theorem findSession_eq_none (l : List (String × AdminDoc)) (token : String)
    (h : ∀ p ∈ l, getDoc p.2.onboarding_sessions token = none) :
    findSession l token = none := by
  induction l with
  | nil => rfl
  | cons p t ih =>
    obtain ⟨uid, a⟩ := p
    have ha := h (uid, a) (List.mem_cons_self _ _)
    simp only [findSession]
    rw [ha]
    exact ih (fun q hq => h q (List.mem_cons_of_mem _ hq))

theorem findSession_session (l : List (String × AdminDoc)) (token : String)
    (uid : String) (a : AdminDoc) (s : Session)
    (h : findSession l token = some (uid, a, s)) :
    getDoc a.onboarding_sessions token = some s := by
  induction l with
  | nil => simp [findSession] at h
  | cons p t ih =>
    obtain ⟨q, b⟩ := p
    simp only [findSession] at h
    cases hg : getDoc b.onboarding_sessions token with
    | none => rw [hg] at h; exact ih h
    | some w =>
      rw [hg] at h
      cases h
      exact hg

/-- Tagging each stored session with its document id turns ascending key
order into ascending id order on the resulting list. -/
theorem idAscending_map (l : List (String × Session)) :
    idAscending (l.map (fun p => { p.2 with id := p.1 })) = keysAscending l := by
  induction l with
  | nil => rfl
  | cons p t ih =>
    cases t with
    | nil => rfl
    | cons q r =>
      obtain ⟨k, v⟩ := p
      obtain ⟨k2, v2⟩ := q
      simp only [List.map, idAscending, keysAscending]
      rw [← ih]
      rfl

/-! Concrete fixtures used by witnesses and counterexamples. -/

/-- The empty database. -/
def emptyStore : Store := { admins := [], users := [], custom_user_claims := [] }

/-- A repository document as created by create_repository for admin a. -/
def repoCore : Repo :=
  { id := "r1", name := "core", url := "u", description := "d", language := "py",
    lastSync := 0, status := "syncing", adminUid := "a" }

/-- A pending onboarding session owned by admin a. -/
def sessTok : Session :=
  { id := "tok", email := "e@x.com", role := "engineer", repositories := ["core"],
    status := "pending", createdAt := 0, completedAt := none, progress := 0,
    customInstructions := none, adminUid := "a", startedAt := none, employeeUid := none }

/-- The admin document of admin a: one repository, one pending session. -/
def adA : AdminDoc :=
  { repositories := [("r1", repoCore)], onboarding_sessions := [("tok", sessTok)] }

/-- A store with one admin owning one repository and one pending session. -/
def baseStore : Store :=
  { admins := [("a", adA)], users := [], custom_user_claims := [] }

/-- Request used to build sessions without repository entries. -/
def reqC2 : CreateOnboardingRequest :=
  { email := "e@x.com", role := "engineer", repositories := [], customInstructions := none, adminUid := "a" }

/-- Store after creating session tok for admin a at time 1. -/
def stC2a : Store := (create_onboarding_session emptyStore reqC2 "tok" 1 true).2

/-- Store after pushing the progress of session tok to 100 at time 2,
which stamps completedAt. -/
def stC2b : Store := (update_onboarding_progress stC2a "a" "tok" 100 2).2

/-- The session returned by the subsequent progress update to 45: status
back to in_progress but completedAt still the old stamp. -/
def sC2final : Session :=
  { id := "tok", email := "e@x.com", role := "engineer", repositories := [],
    status := "in_progress", createdAt := 1, completedAt := some 2, progress := 45,
    customInstructions := none, adminUid := "a", startedAt := none, employeeUid := none }

/-- C2 counterexample: on a session whose completedAt was stamped by an
earlier progress-100 update, updateProgress with 45 yields status
in_progress but a non-null completion timestamp (the stale some 2), so
the claim that value 45 always yields a null completion timestamp fails. -/
theorem C2_counterexample :
    (update_onboarding_progress stC2b "a" "tok" 45 3).1 = .ok sC2final ∧
    sC2final.status = "in_progress" ∧ sC2final.completedAt = some 2 := by decide

/-- C2 (amended): for every existing session, updateProgress with 100
yields status completed and completedAt stamped to now; with 45 yields
status in_progress and completedAt unchanged (hence null only if it was
already null); with 0 the status and completedAt are both unchanged. -/
theorem C2_updateProgress_values (st : Store) (admin_uid session_id : String) (s : Session) (now : Nat)
    (h : getDoc (st.adminDoc admin_uid).onboarding_sessions session_id = some s) :
    (update_onboarding_progress st admin_uid session_id 100 now).1 =
      .ok { s with id := session_id, progress := 100, status := "completed", completedAt := some now } ∧
    (update_onboarding_progress st admin_uid session_id 45 now).1 =
      .ok { s with id := session_id, progress := 45, status := "in_progress" } ∧
    (update_onboarding_progress st admin_uid session_id 0 now).1 =
      .ok { s with id := session_id, progress := 0 } := by
  have h45a : ¬ (45:Int) ≥ 100 := by norm_num
  have h45b : (45:Int) > 0 := by norm_num
  have h0a : ¬ (0:Int) ≥ 100 := by norm_num
  have h0b : ¬ (0:Int) > 0 := by norm_num
  refine ⟨?_, ?_, ?_⟩ <;>
    simp [update_onboarding_progress, h, progressUpdate, catchAll, h45a, h45b, h0a, h0b]

/-- C2 witness: the amended theorem applied to the concrete pending
session tok of baseStore at time 9. -/
theorem C2_updateProgress_values_witness :
    getDoc (baseStore.adminDoc "a").onboarding_sessions "tok" = some sessTok ∧
    ((update_onboarding_progress baseStore "a" "tok" 100 9).1 =
      .ok { sessTok with id := "tok", progress := 100, status := "completed", completedAt := some 9 } ∧
     (update_onboarding_progress baseStore "a" "tok" 45 9).1 =
      .ok { sessTok with id := "tok", progress := 45, status := "in_progress" } ∧
     (update_onboarding_progress baseStore "a" "tok" 0 9).1 =
      .ok { sessTok with id := "tok", progress := 0 }) :=
  ⟨by decide, C2_updateProgress_values baseStore "a" "tok" sessTok 9 (by decide)⟩

/-- C10: updateProgress enforces no range: any value above 100 or below
0 is stored as-is, both in the returned record and in the document; a
value above 100 still forces status completed with completedAt stamped,
while a negative value leaves both status and completedAt unchanged. -/
theorem C10_progress_unbounded (st : Store) (admin_uid session_id : String) (s : Session)
    (p : Int) (now : Nat)
    (h : getDoc (st.adminDoc admin_uid).onboarding_sessions session_id = some s)
    (hp : 100 < p ∨ p < 0) :
    (update_onboarding_progress st admin_uid session_id p now).1 =
      .ok { s with
            id := session_id
            progress := p
            status := if p ≥ 100 then "completed" else s.status
            completedAt := if p ≥ 100 then some now else s.completedAt } ∧
    getDoc (((update_onboarding_progress st admin_uid session_id p now).2.adminDoc admin_uid).onboarding_sessions) session_id =
      some { s with
             progress := p
             status := if p ≥ 100 then "completed" else s.status
             completedAt := if p ≥ 100 then some now else s.completedAt } := by
  simp only [Store.adminDoc] at h
  rcases hp with hp | hp
  · have hge : p ≥ 100 := by omega
    constructor <;>
      simp [update_onboarding_progress, h, progressUpdate, catchAll, hge,
            Store.updateSessionDoc, Store.adminDoc, getDoc_setDoc_self]
  · have hge : ¬ p ≥ 100 := by omega
    have hpos : ¬ p > 0 := by omega
    constructor <;>
      simp [update_onboarding_progress, h, progressUpdate, catchAll, hge, hpos,
            Store.updateSessionDoc, Store.adminDoc, getDoc_setDoc_self]

/-- C10 witness: the theorem applied to session tok of baseStore at the
out-of-range values 150 and -5. -/
theorem C10_progress_unbounded_witness :
    (getDoc (baseStore.adminDoc "a").onboarding_sessions "tok" = some sessTok ∧
     (100 < (150:Int) ∨ (150:Int) < 0)) ∧
    ((update_onboarding_progress baseStore "a" "tok" 150 9).1 =
      .ok { sessTok with
            id := "tok"
            progress := 150
            status := if (150:Int) ≥ 100 then "completed" else sessTok.status
            completedAt := if (150:Int) ≥ 100 then some 9 else sessTok.completedAt } ∧
     getDoc (((update_onboarding_progress baseStore "a" "tok" 150 9).2.adminDoc "a").onboarding_sessions) "tok" =
      some { sessTok with
             progress := 150
             status := if (150:Int) ≥ 100 then "completed" else sessTok.status
             completedAt := if (150:Int) ≥ 100 then some 9 else sessTok.completedAt }) ∧
    ((update_onboarding_progress baseStore "a" "tok" (-5) 9).1 =
      .ok { sessTok with
            id := "tok"
            progress := -5
            status := if (-5:Int) ≥ 100 then "completed" else sessTok.status
            completedAt := if (-5:Int) ≥ 100 then some 9 else sessTok.completedAt } ∧
     getDoc (((update_onboarding_progress baseStore "a" "tok" (-5) 9).2.adminDoc "a").onboarding_sessions) "tok" =
      some { sessTok with
             progress := -5
             status := if (-5:Int) ≥ 100 then "completed" else sessTok.status
             completedAt := if (-5:Int) ≥ 100 then some 9 else sessTok.completedAt }) :=
  ⟨⟨by decide, by decide⟩,
   C10_progress_unbounded baseStore "a" "tok" sessTok 150 9 (by decide) (by decide),
   C10_progress_unbounded baseStore "a" "tok" sessTok (-5) 9 (by decide) (by decide)⟩

/-- Request creating the repository named core for admin a. -/
def reqRepoCore : CreateRepositoryRequest :=
  { name := "core", url := "u", description := "d", language := "py", adminUid := "a" }

/-- Store holding exactly the repository core (id r1) for admin a. -/
def stRepo : Store := (create_repository emptyStore reqRepoCore "r1" 0).2

/-- Create-session request whose repositories entry is the document id
r1 of an existing repository (not its name). -/
def reqIds : CreateOnboardingRequest :=
  { email := "e@x.com", role := "engineer", repositories := ["r1"], customInstructions := none, adminUid := "a" }

/-- Create-session request with an entry matching nothing. -/
def reqGhost : CreateOnboardingRequest :=
  { email := "e@x.com", role := "engineer", repositories := ["ghost"], customInstructions := none, adminUid := "a" }

/-- C3 counterexample: the repository with id r1 exists under admin a,
yet a create-session request listing exactly that id fails (the code
matches entries against repository names, not ids) and writes no
session; moreover the failure reaches the caller as a 500 (the catch-all
re-wraps the intended 400), as does the failure for an entry matching
nothing. -/
theorem C3_counterexample :
    getDoc (stRepo.adminDoc "a").repositories "r1" = some repoCore ∧
    (create_onboarding_session stRepo reqIds "s1" 1 true).1 =
      .error (.http 500 (errStr (.http 400 "Repository \x27r1\x27 not found"))) ∧
    ((create_onboarding_session stRepo reqIds "s1" 1 true).2.adminDoc "a").onboarding_sessions = [] ∧
    (create_onboarding_session stRepo reqGhost "s1" 1 true).1 =
      .error (.http 500 (errStr (.http 400 "Repository \x27ghost\x27 not found"))) := by decide

/-- C3 (amended): entries of the repositories list are matched against
the names of the admins repositories. If some entry differs from every
stored name, the handler raises 400 naming the first such entry, the
catch-all converts it to a 500 response, and the store is unchanged (no
session written); if every entry matches a stored name, the new session
is persisted with status pending and progress 0 and returned. -/
theorem C3_create_session_validation (st : Store) (sd : CreateOnboardingRequest)
    (sid : String) (now : Nat) (b : Bool) :
    match firstMissing ((st.adminDoc sd.adminUid).repositories.map (fun p => p.2.name)) sd.repositories with
    | some rn =>
        create_onboarding_session st sd sid now b =
          (.error (.http 500 (errStr (.http 400 ("Repository \x27" ++ rn ++ "\x27 not found")))), st)
    | none =>
        (create_onboarding_session st sd sid now b).1 = .ok (newSession sd sid now) ∧
        getDoc (((create_onboarding_session st sd sid now b).2.adminDoc sd.adminUid).onboarding_sessions) sid =
          some (newSession sd sid now) ∧
        (newSession sd sid now).status = "pending" ∧ (newSession sd sid now).progress = 0 := by
  cases hfm : firstMissing ((st.adminDoc sd.adminUid).repositories.map (fun p => p.2.name)) sd.repositories with
  | some rn => simp [create_onboarding_session, hfm, catchAll]
  | none =>
    simp only [Store.adminDoc] at hfm
    refine ⟨?_, ?_, rfl, rfl⟩ <;>
      simp [create_onboarding_session, hfm, catchAll, Store.setSessionDoc, Store.adminDoc,
            getDoc_setDoc_self]

/-- C8: once repository validation passes, session creation succeeds and
persists the session whatever the SMTP outcome is; the send outcome is
only a boolean and never surfaces as an error, and the stored session is
not rolled back. -/
theorem C8_email_failure_swallowed (st : Store) (sd : CreateOnboardingRequest)
    (sid : String) (now : Nat) (b : Bool)
    (h : firstMissing ((st.adminDoc sd.adminUid).repositories.map (fun p => p.2.name)) sd.repositories = none) :
    (create_onboarding_session st sd sid now b).1 = .ok (newSession sd sid now) ∧
    create_onboarding_session st sd sid now (send_onboarding_email true) =
      create_onboarding_session st sd sid now (send_onboarding_email false) ∧
    getDoc (((create_onboarding_session st sd sid now b).2.adminDoc sd.adminUid).onboarding_sessions) sid =
      some (newSession sd sid now) := by
  simp only [Store.adminDoc] at h
  refine ⟨?_, ?_, ?_⟩ <;>
    simp [create_onboarding_session, h, catchAll, send_onboarding_email, Store.setSessionDoc,
          Store.adminDoc, getDoc_setDoc_self]

/-- Create-session request whose single entry is the stored repository
name core, passing validation. -/
def reqNames : CreateOnboardingRequest :=
  { email := "e@x.com", role := "engineer", repositories := ["core"], customInstructions := none, adminUid := "a" }

/-- C8 witness: the theorem applied to stRepo with a validating request
and a failing SMTP outcome. -/
theorem C8_email_failure_swallowed_witness :
    firstMissing ((stRepo.adminDoc reqNames.adminUid).repositories.map (fun p => p.2.name)) reqNames.repositories = none ∧
    ((create_onboarding_session stRepo reqNames "s9" 4 false).1 = .ok (newSession reqNames "s9" 4) ∧
     create_onboarding_session stRepo reqNames "s9" 4 (send_onboarding_email true) =
       create_onboarding_session stRepo reqNames "s9" 4 (send_onboarding_email false) ∧
     getDoc (((create_onboarding_session stRepo reqNames "s9" 4 false).2.adminDoc reqNames.adminUid).onboarding_sessions) "s9" =
       some (newSession reqNames "s9" 4)) :=
  ⟨by decide, C8_email_failure_swallowed stRepo reqNames "s9" 4 false (by decide)⟩

/-- C5: a claim on a pending session with matching email succeeds: the
identity service gets role employee with the invited role demoted to
job_role, the users mirror for the claiming uid is written, and the
session moves to in_progress recording startedAt and employeeUid. -/
theorem C5_claim_success (st : Store) (data : EmployeeSignupRequest) (now : Nat)
    (admin_uid : String) (ad : AdminDoc) (s : Session)
    (hfind : findSession st.admins data.onboarding_token = some (admin_uid, ad, s))
    (hget : getDoc st.admins admin_uid = some ad)
    (hmail : s.email = data.email)
    (hpend : s.status = "pending") :
    (employee_signup st data now).1 =
      .ok { message := "Employee signup completed. Role " ++ s.role ++ " assigned to " ++ data.email
            sessionId := data.onboarding_token
            role := s.role
            repositories := s.repositories
            customInstructions := s.customInstructions } ∧
    getDoc (employee_signup st data now).2.custom_user_claims data.uid =
      some { role := "employee", job_role := some s.role } ∧
    getDoc (employee_signup st data now).2.users data.uid =
      some { name := data.name
             email := data.email
             role := "employee"
             job_role := some s.role
             invitedBy := some admin_uid
             onboardingSessionId := some data.onboarding_token
             signupDate := some now } ∧
    getDoc (((employee_signup st data now).2.adminDoc admin_uid).onboarding_sessions) data.onboarding_token =
      some { s with status := "in_progress", startedAt := some now, employeeUid := some data.uid } := by
  have hsess : getDoc ad.onboarding_sessions data.onboarding_token = some s :=
    findSession_session _ _ _ _ _ hfind
  refine ⟨?_, ?_, ?_, ?_⟩ <;>
    simp [employee_signup, hfind, hmail, hpend, catchAll, Store.setUserClaims, Store.setUserDoc,
          Store.updateSessionDoc, Store.adminDoc, hget, hsess, getDoc_setDoc_self]

/-- Signup request of employee u9 with the invited email and token. -/
def reqEve : EmployeeSignupRequest :=
  { uid := "u9", name := "Eve", email := "e@x.com", onboarding_token := "tok" }

/-- C5 witness: the theorem applied to the pending session tok of
baseStore and a matching signup request. -/
theorem C5_claim_success_witness :
    (findSession baseStore.admins reqEve.onboarding_token = some ("a", adA, sessTok) ∧
     getDoc baseStore.admins "a" = some adA ∧
     sessTok.email = reqEve.email ∧ sessTok.status = "pending") ∧
    ((employee_signup baseStore reqEve 9).1 =
      .ok { message := "Employee signup completed. Role " ++ sessTok.role ++ " assigned to " ++ reqEve.email
            sessionId := reqEve.onboarding_token
            role := sessTok.role
            repositories := sessTok.repositories
            customInstructions := sessTok.customInstructions } ∧
     getDoc (employee_signup baseStore reqEve 9).2.custom_user_claims reqEve.uid =
       some { role := "employee", job_role := some sessTok.role } ∧
     getDoc (employee_signup baseStore reqEve 9).2.users reqEve.uid =
       some { name := reqEve.name
              email := reqEve.email
              role := "employee"
              job_role := some sessTok.role
              invitedBy := some "a"
              onboardingSessionId := some reqEve.onboarding_token
              signupDate := some 9 } ∧
     getDoc (((employee_signup baseStore reqEve 9).2.adminDoc "a").onboarding_sessions) reqEve.onboarding_token =
       some { sessTok with status := "in_progress", startedAt := some 9, employeeUid := some reqEve.uid }) :=
  ⟨⟨by decide, by decide, by decide, by decide⟩,
   C5_claim_success baseStore reqEve 9 "a" adA sessTok (by decide) (by decide) (by decide) (by decide)⟩

/-- C6: complete-onboarding works on every existing session with no
status check and no email comparison: the identity service gets the role
stored on the session as the primary role (not the employee tier), the
users mirror is overwritten, and the session moves to in_progress with
startedAt stamped but employeeUid untouched. -/
theorem C6_complete_onboarding_spec (st : Store) (admin_uid session_id : String)
    (data : CompleteOnboardingData) (now : Nat) (s : Session)
    (h : getDoc ((st.adminDoc admin_uid).onboarding_sessions) session_id = some s) :
    (complete_onboarding st admin_uid session_id data now).1 =
      .ok ("Onboarding completed. Role " ++ s.role ++ " assigned to " ++ data.email) ∧
    getDoc (complete_onboarding st admin_uid session_id data now).2.custom_user_claims data.uid =
      some { role := s.role, job_role := none } ∧
    getDoc (complete_onboarding st admin_uid session_id data now).2.users data.uid =
      some { name := data.name
             email := data.email
             role := s.role
             job_role := none
             invitedBy := some admin_uid
             onboardingSessionId := some session_id
             signupDate := none } ∧
    getDoc (((complete_onboarding st admin_uid session_id data now).2.adminDoc admin_uid).onboarding_sessions) session_id =
      some { s with status := "in_progress", startedAt := some now } := by
  simp only [Store.adminDoc] at h
  refine ⟨?_, ?_, ?_, ?_⟩ <;>
    simp [complete_onboarding, h, catchAll, Store.setUserClaims, Store.setUserDoc,
          Store.updateSessionDoc, Store.adminDoc, getDoc_setDoc_self]

/-- A session that already completed, claimed by employee u1. -/
def sessDone : Session :=
  { id := "tok2", email := "e@x.com", role := "designer", repositories := [],
    status := "completed", createdAt := 0, completedAt := some 5, progress := 100,
    customInstructions := none, adminUid := "a", startedAt := some 1, employeeUid := some "u1" }

/-- A store whose only session is the completed sessDone. -/
def stDone : Store :=
  { admins := [("a", { repositories := [], onboarding_sessions := [("tok2", sessDone)] })],
    users := [], custom_user_claims := [] }

/-- Complete-onboarding body whose email differs from the invitation. -/
def dataC6 : CompleteOnboardingData := { uid := "u7", name := "Zoe", email := "other@y.com" }

/-- C6 witness: the theorem applied to a session that is already
completed and a body whose email does not match the invitation,
demonstrating that neither is checked. -/
theorem C6_complete_onboarding_spec_witness :
    getDoc ((stDone.adminDoc "a").onboarding_sessions) "tok2" = some sessDone ∧
    ((complete_onboarding stDone "a" "tok2" dataC6 9).1 =
      .ok ("Onboarding completed. Role " ++ sessDone.role ++ " assigned to " ++ dataC6.email) ∧
     getDoc (complete_onboarding stDone "a" "tok2" dataC6 9).2.custom_user_claims dataC6.uid =
       some { role := sessDone.role, job_role := none } ∧
     getDoc (complete_onboarding stDone "a" "tok2" dataC6 9).2.users dataC6.uid =
       some { name := dataC6.name
              email := dataC6.email
              role := sessDone.role
              job_role := none
              invitedBy := some "a"
              onboardingSessionId := some "tok2"
              signupDate := none } ∧
     getDoc (((complete_onboarding stDone "a" "tok2" dataC6 9).2.adminDoc "a").onboarding_sessions) "tok2" =
       some { sessDone with status := "in_progress", startedAt := some 9 }) :=
  ⟨by decide, C6_complete_onboarding_spec stDone "a" "tok2" dataC6 9 sessDone (by decide)⟩

/-- Request used to build the two sessions of the C7 store. -/
def reqC7 : CreateOnboardingRequest :=
  { email := "e@x.com", role := "engineer", repositories := [], customInstructions := none, adminUid := "a" }

/-- Store where session s2 was created at time 3 and session s1 later at
time 5: the collection holds them in document id order s1, s2. -/
def stC7 : Store :=
  (create_onboarding_session (create_onboarding_session emptyStore reqC7 "s2" 3 true).2 reqC7 "s1" 5 true).2

/-- C7 counterexample: listing the sessions of admin a returns the
session created at time 5 before the one created at time 3 (document id
order), so the result is not ordered by creation time ascending. -/
theorem C7_counterexample :
    (get_onboarding_sessions stC7 "a").1 = .ok [newSession reqC7 "s1" 5, newSession reqC7 "s2" 3] ∧
    (newSession reqC7 "s1" 5).createdAt = 5 ∧ (newSession reqC7 "s2" 3).createdAt = 3 ∧
    createdAtAscending [newSession reqC7 "s1" 5, newSession reqC7 "s2" 3] = false := by decide

/-- C7 (amended): the session listing returns exactly the stored
sessions of that admin, each tagged with its document id, in the stores
document id order (ascending ids), which is independent of creation
time. -/
theorem C7_list_sessions_id_order (st : Store) (admin_uid : String)
    (hsort : keysAscending ((st.adminDoc admin_uid).onboarding_sessions) = true) :
    (get_onboarding_sessions st admin_uid).1 =
      .ok (((st.adminDoc admin_uid).onboarding_sessions).map (fun p => { p.2 with id := p.1 })) ∧
    idAscending (((st.adminDoc admin_uid).onboarding_sessions).map (fun p => { p.2 with id := p.1 })) = true := by
  refine ⟨by simp [get_onboarding_sessions, catchAll], ?_⟩
  rw [idAscending_map]
  exact hsort

/-- C7 witness: the amended theorem applied to the two-session store. -/
theorem C7_list_sessions_id_order_witness :
    keysAscending ((stC7.adminDoc "a").onboarding_sessions) = true ∧
    ((get_onboarding_sessions stC7 "a").1 =
      .ok (((stC7.adminDoc "a").onboarding_sessions).map (fun p => { p.2 with id := p.1 })) ∧
     idAscending (((stC7.adminDoc "a").onboarding_sessions).map (fun p => { p.2 with id := p.1 })) = true) :=
  ⟨by decide, C7_list_sessions_id_order stC7 "a" (by decide)⟩

/-- C1: when no admin owns the token, the resolve handler raises the
intended 404, but its own catch-all intercepts it and the response is a
500 wrapping that 404 (for every store, hence every number of admins),
contradicting the claim that the caller sees NotFound. -/
theorem C1_unknown_token_500 (st : Store) (token : String)
    (h : ∀ p ∈ st.admins, getDoc p.2.onboarding_sessions token = none) :
    get_employee_onboarding_session st token =
      (.error (.http 500 (errStr (.http 404 "Invalid onboarding token"))), st) := by
  have hf : findSession st.admins token = none := findSession_eq_none _ _ h
  simp [get_employee_onboarding_session, hf, catchAll]

/-- A second admin owning an unrelated session. -/
def adB : AdminDoc :=
  { repositories := [], onboarding_sessions := [("other", { sessTok with id := "other" })] }

/-- A store with two admins, neither owning the token zz. -/
def stC1 : Store :=
  { admins := [("a", adA), ("b", adB)], users := [], custom_user_claims := [] }

/-- C1 witness: the theorem applied to a two-admin store and the unknown
token zz. -/
theorem C1_unknown_token_500_witness :
    (∀ p ∈ stC1.admins, getDoc p.2.onboarding_sessions "zz" = none) ∧
    get_employee_onboarding_session stC1 "zz" =
      (.error (.http 500 (errStr (.http 404 "Invalid onboarding token"))), stC1) :=
  ⟨by decide, C1_unknown_token_500 stC1 "zz" (by decide)⟩

/-- Signup request whose email differs from the invitation of tok. -/
def reqEvil : EmployeeSignupRequest :=
  { uid := "u9", name := "Mallory", email := "evil@x.com", onboarding_token := "tok" }

/-- Session tok already claimed and in progress. -/
def sessStarted : Session :=
  { sessTok with status := "in_progress", startedAt := some 2, employeeUid := some "u1" }

/-- Store whose session tok is already in progress. -/
def stStarted : Store :=
  { admins := [("a", { repositories := [("r1", repoCore)], onboarding_sessions := [("tok", sessStarted)] })],
    users := [], custom_user_claims := [] }

/-- C4: a claim with a mismatched email, and a claim on a non-pending
session, are both rejected before any write (the store is returned
unchanged: session untouched, no claims, no user mirror), but the
response is a 500 wrapping the intended 400, not the ValidationError the
claim states. -/
theorem C4_validation_rejections_give_500 :
    employee_signup baseStore reqEvil 9 =
      (.error (.http 500 (errStr (.http 400 "Email does not match invitation"))), baseStore) ∧
    employee_signup stStarted reqEve 9 =
      (.error (.http 500 (errStr (.http 400 "Onboarding session is no longer valid"))), stStarted) := by
  decide

/-- Store after deleting repository r1 from stRepo. -/
def stR2 : Store := (delete_repository stRepo "a" "r1").2

/-- C9: the repository round-trip on a concrete run: create returns the
repository, the listing contains it exactly once with matching fields,
deletion succeeds, the subsequent listing omits it — but the second
delete responds 500 wrapping the intended 404, not the NotFound the
claim states. -/
theorem C9_roundtrip_second_delete_500 :
    (create_repository emptyStore reqRepoCore "r1" 0).1 = .ok repoCore ∧
    (get_repositories stRepo "a").1 = .ok [repoCore] ∧
    delete_repository stRepo "a" "r1" = (.ok "Repository deleted successfully", stR2) ∧
    (get_repositories stR2 "a").1 = .ok [] ∧
    (delete_repository stR2 "a" "r1").1 =
      .error (.http 500 (errStr (.http 404 "Repository not found"))) := by decide

end CComp
